/-
Verification of `zmq/rpc/simplerpc.py` (pyzmq simple RPC layer) against its
natural-language specification.

Shallow embedding notes.

* Wire frames are byte strings of the transport; we model a frame as a Lean
  `String` (the file targets Python 2, where `bytes` and `str` coincide, and
  every frame operation used by the code is equality testing, list indexing
  and UTF-8 decoding, which is the identity on this model).
* Python values carried by the pluggable serializer are a type parameter `V`;
  the serializer/deserializer pair is passed explicitly, mirroring
  `RPCBase.__init__(serializer=..., deserializer=...)`.  A Python callable
  that may raise is modelled as a function into `Except PyError _`.
* A Python exception is modelled by the three pieces of data the code
  extracts from one in `RPCService._send_error`: the type name
  (`etype.__name__`), the stringified value (`unicode(evalue)`) and the
  formatted traceback (`traceback.format_exc(tb)`).
* Statefulness (the correlation ledger `self._callbacks`, the bound-url list
  `self.urls`) is passed explicitly; the fresh `uuid` message ids are inputs.
-/
import Mathlib

namespace SimpleRPC

/-- A Python exception as observed by `simplerpc.py`: type name, message
text, formatted traceback. -/
structure PyError where
  ename : String
  evalue : String
  tb : String
  deriving DecidableEq, Repr

/-- The `AttributeError` raised when `.error` is looked up on an
`AsyncRemoteMethod` instance (see `asyncProxyLogError`). -/
def attributeErrorLog : PyError :=
  { ename := "AttributeError"
  , evalue := "AsyncRemoteMethod instance has no attribute error"
  , tb := "Traceback (most recent call last): AttributeError" }

/-- The `NameError` raised when the local variable `result` is read while
unbound (reply status neither SUCCESS nor FAILURE, see `handleReply`). -/
def nameErrorResult : PyError :=
  { ename := "NameError"
  , evalue := "name result is not defined"
  , tb := "Traceback (most recent call last): NameError" }

/-- The `IndexError` raised by `msg_list[i]` on a too-short multipart
message. -/
def indexError : PyError :=
  { ename := "IndexError", evalue := "list index out of range"
  , tb := "Traceback (most recent call last): IndexError" }

/-!  ## Service side: `RPCService`  -/

/-- A method of a service object as the dispatcher sees it: the
`is_rpc_method` attribute (absent attribute modelled as `false`, matching
`getattr(handler, 'is_rpc_method', False)`), and the callable itself.
`run` receives the two objects deserialized from the args/kwargs frames
(which in Python are unpacked as `handler(*args, **kwargs)`; unpacking
errors are exceptions of the call and are absorbed into `run`'s
`Except`). -/
structure RPCMethod (V : Type) where
  is_rpc_method : Bool
  run : V → V → Except PyError V

/-- An `RPCService` instance: its attribute table (what
`getattr(self, method, None)` finds) together with its pluggable codec
(`self._deserialize` / `self._serialize`, both of which may raise). -/
structure RPCService (V : Type) where
  attrs : String → Option (RPCMethod V)
  deserialize : String → Except PyError V
  serialize : V → Except PyError String

/-- Outcome of one `RPCService._handle_request` invocation. -/
inductive HandleResult where
  /-- Frames emitted on the ROUTER stream (one multipart reply). -/
  | reply (frames : List String)
  /-- Effect of `logging.error('Unknown RPC method: %s' % method)`; nothing sent. -/
  | logged_drop (method : String)
  /-- An exception escaped `_handle_request` into the event loop. -/
  | raised (e : PyError)
  deriving DecidableEq, Repr

/-- Model of `RPCService._send_error`: the failure-reply frames
`[ident, msg_id, 'FAILURE', ename, evalue, traceback]` (the three error
fields are sent with `send_unicode`, i.e. UTF-8 text). -/
def sendError (ident msg_id : String) (e : PyError) : List String :=
  [ident, msg_id, "FAILURE", e.ename, e.evalue, e.tb]

/-- Model of `RPCService._handle_request(msg_list)`.

The code reads `msg_list[0] .. msg_list[4]` (ident, msg_id, method,
pickled args, pickled kwargs); a shorter message raises `IndexError`
before anything else happens.  The two `_deserialize` calls on lines
160-161 sit *outside* the `try:` that guards the handler invocation, so a
deserialization exception propagates out of `_handle_request`.  The
handler is invoked only when `getattr(self, method, None)` found it and
its `is_rpc_method` attribute is true; otherwise the request is logged
and dropped with no reply.  An invocation exception, or a serialization
exception while encoding the result, is answered by `_send_error`. -/
def handle_request (svc : RPCService V) : List String → HandleResult
  | ident :: msg_id :: method :: pargs :: pkwargs :: _ =>
    match svc.deserialize pargs with
    | .error e => .raised e
    | .ok args =>
      match svc.deserialize pkwargs with
      | .error e => .raised e
      | .ok kwargs =>
        match svc.attrs method with
        | some handler =>
          if handler.is_rpc_method then
            match handler.run args kwargs with
            | .error e => .reply (sendError ident msg_id e)
            | .ok result =>
              match svc.serialize result with
              | .error e => .reply (sendError ident msg_id e)
              | .ok presult => .reply [ident, msg_id, "SUCCESS", presult]
          else .logged_drop method
        | none => .logged_drop method
  | _ => .raised indexError

/-!  ## Python attribute lookup on the proxies

`RPCServiceProxy.call` and `AsyncRPCServiceProxy.call` both begin with
`if not self._ready: raise RuntimeError('bind or connect must be called
first')`.  No statement in the module ever assigns `_ready`: the instance
attributes written by `RPCBase.__init__` / `reset` / `bind` / `connect`
and `AsyncRPCServiceProxy.__init__` are listed below, and the class
bodies define only methods.  An attribute lookup that misses both the
instance dict and the classes falls through to `__getattr__`, which on
`RPCServiceProxy` returns `RemoteMethod(self, name)` and on
`AsyncRPCServiceProxy` returns `AsyncRemoteMethod(self, name)`. -/

/-- Names ever assigned on a proxy instance (`RPCBase.__init__`,
`reset`, `bind`/`connect` append to `urls`; the async subclass adds
`_callbacks`). -/
def proxyInstanceAttrs : List String :=
  ["loop", "context", "socket", "stream", "_serializer", "_deserializer",
   "urls", "_callbacks"]

/-- Methods defined by the proxy classes (`RPCBase`,
`RPCServiceProxyBase`, the two proxy classes). -/
def proxyClassAttrs : List String :=
  ["__init__", "reset", "bind", "connect", "_create_socket", "_init_stream",
   "_serialize", "_deserialize", "call", "__getattr__", "_handle_reply"]

/-- A `RemoteMethodBase` instance (either flavour) defines no `__bool__`
(`__nonzero__`) and no `__len__`, so Python's truth test on it yields
`True`. -/
def remoteMethodTruthy : Bool := true

/-- Truthiness of the expression `self._ready` on either proxy.  `_ready`
is in neither the instance attributes nor the class attributes, so the
lookup falls through to `__getattr__` and produces a
`RemoteMethod`/`AsyncRemoteMethod` instance, which is truthy.  (The first
branch is unreachable: `_ready` is never assigned.) -/
def proxyReadyTruthy : Bool :=
  if "_ready" ∈ proxyInstanceAttrs ++ proxyClassAttrs then true
  else remoteMethodTruthy

/-- Attributes available on an `AsyncRemoteMethod` instance: the two set
by `RemoteMethodBase.__init__` plus the class's `__call__` and
`__init__`. -/
def asyncRemoteMethodAttrs : List String :=
  ["proxy", "method", "__call__", "__init__"]

/-- The statement `self.log.error('Unexpected callback error',
exc_info=True)` in `AsyncRPCServiceProxy._handle_reply`.  `log` is never
assigned, so `self.log` resolves through `__getattr__` to
`AsyncRemoteMethod(self, 'log')`; that object has no `error` attribute,
so the attribute access raises `AttributeError`.  (The first two branches
are unreachable.) -/
def asyncProxyLogError : Except PyError Unit :=
  if "log" ∈ proxyInstanceAttrs ++ proxyClassAttrs then .ok ()
  else if "error" ∈ asyncRemoteMethodAttrs then .ok ()
  else .error attributeErrorLog

/-!  ## Synchronous proxy: `RPCServiceProxy.call`  -/

/-- Mutable state of a proxy that the embedded operations consult: the
url list maintained by `bind`/`connect` (`urls = []` iff neither has been
called since the last `reset`). -/
structure ProxyState where
  urls : List String
  deriving DecidableEq, Repr

/-- The ways `RPCServiceProxy.call` can terminate abnormally. -/
inductive CallFailure where
  /-- Effect of `raise RuntimeError('bind or connect must be called first')`. -/
  | runtimeError (msg : String)
  /-- Case where `self._serialize` raised while encoding args or kwargs. -/
  | serializeError (e : PyError)
  /-- Case where `self._deserialize` raised while decoding the SUCCESS result. -/
  | deserializeError (e : PyError)
  /-- Effect of `raise RemoteRPCError(ename, evalue, tb)`. -/
  | remoteError (ename evalue tb : String)
  /-- Case where `msg_list[i]` was out of range on the received reply. -/
  | indexError
  deriving DecidableEq, Repr

/-- What one synchronous `call` did: the frames it sent (in order, one
multipart message; `[]` if it raised before sending) and its result.
`.ok none` is Python's implicit `None` return (reply status neither
SUCCESS nor FAILURE). -/
structure SyncCallResult (V : Type) where
  sent : List String
  outcome : Except CallFailure (Option V)

/-- Model of `RPCServiceProxy.call(method, *args, **kwargs)`.

`st` is the proxy state, `ser`/`deser` its codec, `msg_id` the fresh
`bytes(uuid.uuid4())`, and `recv` the multipart message returned by the
blocking `self.socket.recv_multipart()`.

Control flow of the source: the `not self._ready` guard (see
`proxyReadyTruthy`; note it consults no state, in particular not
`st.urls`); serialize args then kwargs; send
`[msg_id, method, pargs, pkwargs]`; blocking receive; on `SUCCESS`
deserialize `msg_list[2]` and return it; on `FAILURE` raise
`RemoteRPCError(msg_list[2], msg_list[3], msg_list[3])` — line 332 reads
`tb = msg_list[3].decode('utf-8')`, the *evalue* frame, not
`msg_list[4]`; on any other status fall off the end, returning `None`. -/
def syncCall (st : ProxyState) (ser : V → Except PyError String)
    (deser : String → Except PyError V)
    (method : String) (args kwargs : V) (msg_id : String)
    (recv : List String) : SyncCallResult V :=
  if !proxyReadyTruthy then
    { sent := [], outcome := .error (.runtimeError "bind or connect must be called first") }
  else
    match ser args with
    | .error e => { sent := [], outcome := .error (.serializeError e) }
    | .ok pargs =>
      match ser kwargs with
      | .error e => { sent := [], outcome := .error (.serializeError e) }
      | .ok pkwargs =>
        let sent := [msg_id, method, pargs, pkwargs]
        match recv with
        | _ :: status :: rest =>
          if status == "SUCCESS" then
            match rest with
            | blob :: _ =>
              match deser blob with
              | .error e => { sent := sent, outcome := .error (.deserializeError e) }
              | .ok v => { sent := sent, outcome := .ok (some v) }
            | [] => { sent := sent, outcome := .error .indexError }
          else if status == "FAILURE" then
            match rest with
            | ename :: evalue :: _ =>
              { sent := sent, outcome := .error (.remoteError ename evalue evalue) }
            | _ => { sent := sent, outcome := .error .indexError }
          else { sent := sent, outcome := .ok none }
        | _ => { sent := sent, outcome := .error .indexError }

/-!  ## Asynchronous proxy: `AsyncRPCServiceProxy`  -/

/-- The single argument an async callback receives: the deserialized
result on SUCCESS, or the `RemoteRPCError(ename, evalue, tb)` value built
on FAILURE. -/
inductive CallResult (V : Type) where
  | success (v : V)
  | failure (ename evalue tb : String)
  deriving DecidableEq, Repr

/-- A registered callback; a Python callable that may raise. -/
abbrev Callback (V : Type) := CallResult V → Except PyError Unit

/-- The correlation ledger `self._callbacks`, a dict keyed by the msg-id
frame; modelled as an association list (first binding wins, as
`dict.get`). -/
abbrev Ledger (V : Type) := List (String × Callback V)

/-- Model of `dict.get(msg_id)`: `None` when absent. -/
def Ledger.get (cbs : Ledger V) (msg_id : String) : Option (Callback V) :=
  match cbs.find? (fun kv => kv.1 == msg_id) with
  | some kv => some kv.2
  | none => none

/-- Model of `self._callbacks[msg_id] = callback`. -/
def Ledger.set (cbs : Ledger V) (msg_id : String) (cb : Callback V) : Ledger V :=
  if (cbs.find? (fun kv => kv.1 == msg_id)).isSome then
    cbs.map (fun kv => if kv.1 == msg_id then (kv.1, cb) else kv)
  else cbs ++ [(msg_id, cb)]

/-- What one `AsyncRPCServiceProxy._handle_reply` invocation did. -/
structure ReplyEffect (V : Type) where
  /-- The ledger afterwards (the handler never mutates `self._callbacks`,
  so this always equals the ledger before). -/
  ledger : Ledger V
  /-- The argument a callback was entered with, if one was invoked. -/
  invoked : Option (CallResult V)
  /-- Holds `true` iff `self.log.error(...)` completed. -/
  logged : Bool
  /-- An exception that escaped `_handle_reply` into the event loop. -/
  raised : Option PyError

/-- Model of `AsyncRPCServiceProxy._handle_reply(msg_list)`.

`msg_list[0]` is the msg-id, `msg_list[1]` the status.  On `SUCCESS` the
result is `self._deserialize(msg_list[2])` (outside any `try:`, so a
deserialization exception propagates); on `FAILURE` it is
`RemoteRPCError(msg_list[2], msg_list[3], msg_list[4])` (this handler,
unlike the sync one, reads frame 4 for the traceback); on any other
status the local `result` stays unbound.  Then
`cb = self._callbacks.get(msg_id)` — a `get`, not a `pop`: the entry is
not removed — and, if `cb` is not `None`, `cb(result)` runs inside
`try:`; reading the unbound `result` raises `NameError` there.  The
`except:` arm executes `self.log.error(...)`, which itself raises
`AttributeError` (see `asyncProxyLogError`).

`decodeReply` models the first half (computing `result`); `handleReply`
the whole handler. -/
def decodeReply (deser : String → Except PyError V) (status : String)
    (rest : List String) : Except PyError (Option (CallResult V)) :=
  if status == "SUCCESS" then
    match rest with
    | blob :: _ => (deser blob).map (fun v => some (.success v))
    | [] => .error indexError
  else if status == "FAILURE" then
    match rest with
    | ename :: evalue :: tb :: _ => .ok (some (.failure ename evalue tb))
    | _ => .error indexError
  else .ok none

def handleReply (deser : String → Except PyError V) (cbs : Ledger V) :
    List String → ReplyEffect V
  | msg_id :: status :: rest =>
    match decodeReply deser status rest with
    | .error e => { ledger := cbs, invoked := none, logged := false, raised := some e }
    | .ok resultOpt =>
      match cbs.get msg_id with
      | none => { ledger := cbs, invoked := none, logged := false, raised := none }
      | some cb =>
        match resultOpt with
        | none =>
          -- `cb(result)` with `result` unbound: NameError inside the try,
          -- then the except arm's `self.log.error` raises AttributeError.
          match asyncProxyLogError with
          | .ok _ => { ledger := cbs, invoked := none, logged := true, raised := none }
          | .error e => { ledger := cbs, invoked := none, logged := false, raised := some e }
        | some r =>
          match cb r with
          | .ok _ => { ledger := cbs, invoked := some r, logged := false, raised := none }
          | .error _ =>
            match asyncProxyLogError with
            | .ok _ => { ledger := cbs, invoked := some r, logged := true, raised := none }
            | .error e => { ledger := cbs, invoked := some r, logged := false, raised := some e }
  | _ => { ledger := cbs, invoked := none, logged := false, raised := some indexError }

/-- What one `AsyncRPCServiceProxy.call` did. -/
structure AsyncCallResult (V : Type) where
  sent : List String
  ledger : Ledger V
  outcome : Except CallFailure Unit

/-- Model of `AsyncRPCServiceProxy.call(method, callback, *args, **kwargs)`.

Same `not self._ready` guard as the sync path (see `proxyReadyTruthy`;
again no state, in particular not `st.urls`, is consulted); serialize
args then kwargs; send `[msg_id, method, pargs, pkwargs]` on the stream;
only then register `self._callbacks[msg_id] = callback`. -/
def asyncCall (st : ProxyState) (ser : V → Except PyError String)
    (method : String) (callback : Callback V) (args kwargs : V)
    (msg_id : String) (cbs : Ledger V) : AsyncCallResult V :=
  if !proxyReadyTruthy then
    { sent := [], ledger := cbs
    , outcome := .error (.runtimeError "bind or connect must be called first") }
  else
    match ser args with
    | .error e => { sent := [], ledger := cbs, outcome := .error (.serializeError e) }
    | .ok pargs =>
      match ser kwargs with
      | .error e => { sent := [], ledger := cbs, outcome := .error (.serializeError e) }
      | .ok pkwargs =>
        { sent := [msg_id, method, pargs, pkwargs]
        , ledger := cbs.set msg_id callback
        , outcome := .ok () }

/-!  ## The `Echo` example service

The module docstring defines the example service

    class Echo(RPCService):
        @rpc_method
        def echo(self, s):
            return s

`rpc_method` sets `echo.is_rpc_method = True`.  We model the Python
values the codec carries for it by a tiny universe of strings and
cons-cell sequences (a tuple `("hello",)` is `.cons (.str "hello") .nil`,
the empty kwargs dict is `.nil`). -/

inductive PyVal where
  | str (s : String)
  | nil
  | cons (hd tl : PyVal)
  deriving DecidableEq, Repr

/-- The `TypeError` raised by Python when `echo(*args, **kwargs)` does not
bind exactly the one positional parameter `s`. -/
def typeErrorEcho : PyError :=
  { ename := "TypeError", evalue := "echo() takes exactly 2 arguments"
  , tb := "Traceback (most recent call last): TypeError" }

/-- Model of `Echo.echo(self, s): return s`, applied as `echo(*args, **kwargs)`:
succeeds exactly when args is a one-element tuple and kwargs is empty,
returning that element unchanged. -/
def echoRun : PyVal → PyVal → Except PyError PyVal
  | .cons v .nil, .nil => .ok v
  | _, _ => .error typeErrorEcho

/-- The `Echo` service instance with a pluggable codec: `getattr` finds
`echo` with `is_rpc_method = True`; no other attribute of the instance
carries the `is_rpc_method` marker, so no other name resolves to an
RPC-exposed handler. -/
def echoService (ser : PyVal → Except PyError String)
    (deser : String → Except PyError PyVal) : RPCService PyVal :=
  { attrs := fun name => if name = "echo" then some ⟨true, echoRun⟩ else none
  , deserialize := deser
  , serialize := ser }

/-- Does a `call` outcome consist of the precondition `RuntimeError`
(`'bind or connect must be called first'`)? -/
def isPrecondError {α : Type} : Except CallFailure α → Bool
  | .error (.runtimeError _) => true
  | _ => false

/-!  Concrete instantiations used by the witnesses below.  The codec is a
pluggable parameter of `RPCBase.__init__`; `toySer`/`toyDeser` is one
concrete codec pair that round-trips the three values the echo scenario
ships. -/

/-- A proxy on which neither `bind` nor `connect` has been called. -/
def st0 : ProxyState := { urls := [] }

def toySer : PyVal → Except PyError String := fun v =>
  .ok (if v = .str "hello" then "a"
       else if v = .cons (.str "hello") .nil then "b"
       else if v = .nil then "c" else "z")

def toyDeser : String → Except PyError PyVal := fun s =>
  if s = "a" then .ok (.str "hello")
  else if s = "b" then .ok (.cons (.str "hello") .nil)
  else if s = "c" then .ok .nil
  else .error { ename := "UnpicklingError", evalue := "invalid load key"
              , tb := "Traceback (most recent call last): UnpicklingError" }

/-- A codec for `Nat` payloads whose deserializer fails on every blob
except `"good"`. -/
def natSer : Nat → Except PyError String := fun n => .ok (toString n)

def badPickle : PyError :=
  { ename := "UnpicklingError", evalue := "invalid load key"
  , tb := "Traceback (most recent call last): UnpicklingError" }

def natDeser : String → Except PyError Nat := fun s =>
  if s = "good" then .ok 0 else .error badPickle

/-!  ## Helper lemmas  -/

/-- The `not self._ready` guard in both `call` implementations is always
false: `_ready` is never assigned, the lookup falls to `__getattr__`, and
the resulting `(Async)RemoteMethod` instance is truthy. -/
theorem proxyReadyTruthy_eq_true : proxyReadyTruthy = true := by decide

/-- The sync `call` never raises the precondition `RuntimeError`,
whatever the reply. -/
theorem syncCall_not_precondError (st : ProxyState)
    (ser : V → Except PyError String) (deser : String → Except PyError V)
    (m : String) (a k : V) (mid : String) (recv : List String) :
    isPrecondError (syncCall st ser deser m a k mid recv).outcome = false := by
  unfold syncCall
  rw [proxyReadyTruthy_eq_true]
  simp only [Bool.not_true, Bool.false_eq_true, if_false]
  cases ser a with
  | error e => rfl
  | ok pa =>
    cases ser k with
    | error e => rfl
    | ok pk =>
      match recv with
      | [] => rfl
      | [x] => rfl
      | x :: status :: rest =>
        simp only
        by_cases hs : status == "SUCCESS"
        · simp only [hs, if_true]
          match rest with
          | [] => rfl
          | blob :: rest' =>
            simp only
            cases deser blob <;> rfl
        · simp only [hs, if_false]
          by_cases hf : status == "FAILURE"
          · simp only [hf, if_true]
            match rest with
            | [] => rfl
            | [en] => rfl
            | en :: ev :: r => rfl
          · simp only [hf, if_false]
            rfl

/-- When serializing args and kwargs succeeds, the sync `call` emits
precisely the four request frames, whatever reply later arrives. -/
theorem syncCall_sent (st : ProxyState) (ser : V → Except PyError String)
    (deser : String → Except PyError V) (m : String) (a k : V)
    (mid : String) (recv : List String) (pa pk : String)
    (hsa : ser a = .ok pa) (hsk : ser k = .ok pk) :
    (syncCall st ser deser m a k mid recv).sent = [mid, m, pa, pk] := by
  unfold syncCall
  rw [proxyReadyTruthy_eq_true, hsa, hsk]
  simp only [Bool.not_true, Bool.false_eq_true, if_false]
  match recv with
  | [] => rfl
  | [x] => rfl
  | x :: status :: rest =>
    simp only
    by_cases hs : status == "SUCCESS"
    · simp only [hs, if_true]
      match rest with
      | [] => rfl
      | blob :: rest' =>
        simp only
        cases deser blob <;> rfl
    · simp only [hs, if_false]
      by_cases hf : status == "FAILURE"
      · simp only [hf, if_true]
        match rest with
        | [] => rfl
        | [en] => rfl
        | en :: ev :: r => rfl
      · simp only [hf, if_false]
        rfl

/-- C1: the spec requires `call` on an unbound/unconnected proxy to raise
the precondition error immediately and send nothing; the code violates
this.  `_ready` is never assigned anywhere in the module, and both
proxies define `__getattr__` to return a `RemoteMethod` /
`AsyncRemoteMethod` instance, which is truthy, so the guard
`if not self._ready` never fires — on a proxy with `urls = []` (neither
`bind` nor `connect` called) both the sync and the async `call` proceed
to send the four request frames and never produce the precondition
`RuntimeError`.  (Note `syncCall`/`asyncCall` consult no bind state at
all: the result is the same for every `st`.) -/
theorem ready_guard_never_fires (V : Type) (st : ProxyState)
    (ser : V → Except PyError String) (deser : String → Except PyError V)
    (m : String) (a k : V) (cb : Callback V) (mid : String)
    (recv : List String) (cbs : Ledger V) (pa pk : String)
    (hunbound : st.urls = [])
    (hsa : ser a = .ok pa) (hsk : ser k = .ok pk) :
    (syncCall st ser deser m a k mid recv).sent = [mid, m, pa, pk] ∧
    isPrecondError (syncCall st ser deser m a k mid recv).outcome = false ∧
    (asyncCall st ser m cb a k mid cbs).sent = [mid, m, pa, pk] ∧
    isPrecondError (asyncCall st ser m cb a k mid cbs).outcome = false := by
  refine ⟨syncCall_sent st ser deser m a k mid recv pa pk hsa hsk,
    syncCall_not_precondError st ser deser m a k mid recv, ?_, ?_⟩
  · unfold asyncCall
    rw [proxyReadyTruthy_eq_true, hsa, hsk]
    rfl
  · unfold asyncCall
    rw [proxyReadyTruthy_eq_true, hsa, hsk]
    rfl

/-- Witness for `ready_guard_never_fires` at a concrete unbound proxy. -/
theorem ready_guard_never_fires_witness :
    st0.urls = [] ∧ natSer 1 = .ok "1" ∧ natSer 2 = .ok "2" ∧
    ((syncCall st0 natSer natDeser "echo" 1 2 "mid" []).sent = ["mid", "echo", "1", "2"] ∧
     isPrecondError (syncCall st0 natSer natDeser "echo" 1 2 "mid" []).outcome = false ∧
     (asyncCall st0 natSer "echo" (fun _ => .ok ()) 1 2 "mid" []).sent = ["mid", "echo", "1", "2"] ∧
     isPrecondError (asyncCall st0 natSer "echo" (fun _ => .ok ()) 1 2 "mid" []).outcome = false) :=
  ⟨rfl, rfl, rfl,
   ready_guard_never_fires Nat st0 natSer natDeser "echo" 1 2 (fun _ => .ok ())
     "mid" [] [] "1" "2" rfl rfl rfl⟩

/-- A callback that succeeds. -/
def cbOk : Callback Nat := fun _ => .ok ()

/-- The exception raised by a faulty callback. -/
def cbError : PyError :=
  { ename := "ValueError", evalue := "callback exploded"
  , tb := "Traceback (most recent call last): ValueError" }

/-- A callback that raises. -/
def cbRaise : Callback Nat := fun _ => .error cbError

/-- C2 counterexample: concretely, with the ledger `[("id1", cbOk)]`,
delivering the matching SUCCESS reply leaves the entry in the ledger (the
handler reads it with `dict.get`, never deleting), and delivering the
very same reply a second time finds the entry again and invokes the
callback again — refuting the claim that delivery removes the entry and
that a second delivery invokes no callback. -/
theorem reply_delivery_keeps_entry_cx :
    (handleReply natDeser [("id1", cbOk)] ["id1", "SUCCESS", "good"]).ledger
        = [("id1", cbOk)] ∧
    (handleReply natDeser
        ((handleReply natDeser [("id1", cbOk)] ["id1", "SUCCESS", "good"]).ledger)
        ["id1", "SUCCESS", "good"]).invoked = some (.success 0) :=
  ⟨rfl, rfl⟩

/-- C2 amended: `_handle_reply` never removes (or otherwise changes) any
ledger entry — it reads `self._callbacks` with `get`, not `pop` — so
re-delivering the same reply repeats exactly the first delivery's
behaviour: a registered continuation can be resolved arbitrarily often,
not at most once. -/
theorem handle_reply_preserves_ledger (V : Type)
    (deser : String → Except PyError V) (cbs : Ledger V) (msg : List String) :
    (handleReply deser cbs msg).ledger = cbs ∧
    handleReply deser (handleReply deser cbs msg).ledger msg
      = handleReply deser cbs msg := by
  have h : (handleReply deser cbs msg).ledger = cbs := by
    match msg with
    | [] => rfl
    | [x] => rfl
    | x :: s :: rest =>
      simp only [handleReply]
      split
      · rfl
      · split
        · rfl
        · split
          · split <;> rfl
          · split
            · rfl
            · split <;> rfl
  exact ⟨h, by rw [h]⟩

/-- C3: the spec says the `RemoteRPCError` raised by the sync proxy on a
FAILURE reply carries the reply's remote-traceback frame (`msg_list[4]`)
as its traceback; the code violates this.  Line 332 reads
`tb = msg_list[3].decode('utf-8')` — the error-message frame — so for the
concrete FAILURE reply
`[call-id, "FAILURE", "ValueError", "bad input", "Traceback: remote"]`
the raised error is `RemoteRPCError("ValueError", "bad input",
"bad input")`: ename and evalue match the claim, but the traceback equals
the error-message frame, not the (distinct) remote-traceback frame. -/
theorem sync_failure_traceback_misread :
    (syncCall st0 natSer natDeser "add" 1 2 "mid"
        ["mid", "FAILURE", "ValueError", "bad input", "Traceback: remote"]).outcome
      = .error (.remoteError "ValueError" "bad input" "bad input") ∧
    ("bad input" : String) ≠ "Traceback: remote" :=
  ⟨rfl, by decide⟩

/-!  Concrete services for the witnesses. -/

/-- The exception raised by the `boom` method below. -/
def boomError : PyError :=
  { ename := "ValueError", evalue := "bad input"
  , tb := "Traceback (most recent call last): ValueError" }

/-- An RPC-exposed method whose invocation always raises. -/
def boomMethod : RPCMethod Nat := ⟨true, fun _ _ => .error boomError⟩

/-- An RPC-exposed method that returns 5. -/
def mkMethod : RPCMethod Nat := ⟨true, fun _ _ => .ok 5⟩

/-- A name-matched method *not* marked by `@rpc_method`
(no `is_rpc_method` attribute, so the `getattr(handler, 'is_rpc_method',
False)` default applies). -/
def plainMethod : RPCMethod Nat := ⟨false, fun _ _ => .ok 0⟩

/-- The exception raised by a serializer that cannot encode a result. -/
def picklingError : PyError :=
  { ename := "PicklingError", evalue := "cannot pickle result"
  , tb := "Traceback (most recent call last): PicklingError" }

/-- Service with methods `boom` (raises), `mk` (returns 5) and `plain`
(unmarked); working codec. -/
def svcNat : RPCService Nat :=
  { attrs := fun n =>
      if n = "boom" then some boomMethod
      else if n = "mk" then some mkMethod
      else if n = "plain" then some plainMethod
      else none
  , deserialize := natDeser
  , serialize := natSer }

/-- Same service but with a serializer that always raises. -/
def svcNatSerFail : RPCService Nat :=
  { attrs := svcNat.attrs
  , deserialize := natDeser
  , serialize := fun _ => .error picklingError }

/-- C4: a request that resolves to an RPC-exposed method whose invocation
raises `e` — or whose invocation succeeds with `r` but serializing `r`
raises `e2` — is answered with the `_send_error` FAILURE frames
`[ident, call-id, "FAILURE", ename, evalue, traceback]` built from the
raising exception, addressed to the original identity and call-id; the
outcome is `.reply`, not `.raised`, so nothing propagates to the event
loop, and the serialization failure is reported, never swallowed. -/
theorem dispatcher_failure_reply (V : Type) (svc svc2 : RPCService V)
    (ident cid meth pargs pkw ident2 cid2 meth2 pargs2 pkw2 : String)
    (rest rest2 : List String) (args kwargs args2 kwargs2 r : V)
    (handler handler2 : RPCMethod V) (e e2 : PyError)
    (hda : svc.deserialize pargs = .ok args) (hdk : svc.deserialize pkw = .ok kwargs)
    (hh : svc.attrs meth = some handler) (hrpc : handler.is_rpc_method = true)
    (hrun : handler.run args kwargs = .error e)
    (hda2 : svc2.deserialize pargs2 = .ok args2)
    (hdk2 : svc2.deserialize pkw2 = .ok kwargs2)
    (hh2 : svc2.attrs meth2 = some handler2) (hrpc2 : handler2.is_rpc_method = true)
    (hrun2 : handler2.run args2 kwargs2 = .ok r) (hser2 : svc2.serialize r = .error e2) :
    handle_request svc (ident :: cid :: meth :: pargs :: pkw :: rest)
      = .reply [ident, cid, "FAILURE", e.ename, e.evalue, e.tb] ∧
    handle_request svc2 (ident2 :: cid2 :: meth2 :: pargs2 :: pkw2 :: rest2)
      = .reply [ident2, cid2, "FAILURE", e2.ename, e2.evalue, e2.tb] := by
  constructor
  · simp [handle_request, hda, hdk, hh, hrpc, hrun, sendError]
  · simp [handle_request, hda2, hdk2, hh2, hrpc2, hrun2, hser2, sendError]

/-- Witness for `dispatcher_failure_reply`: the `boom` method of `svcNat`
raising, and the `mk` method of `svcNatSerFail` whose result cannot be
serialized. -/
theorem dispatcher_failure_reply_witness :
    svcNat.deserialize "good" = .ok 0 ∧
    svcNat.attrs "boom" = some boomMethod ∧
    boomMethod.is_rpc_method = true ∧
    boomMethod.run 0 0 = .error boomError ∧
    svcNatSerFail.attrs "mk" = some mkMethod ∧
    mkMethod.run 0 0 = .ok 5 ∧
    svcNatSerFail.serialize 5 = .error picklingError ∧
    (handle_request svcNat ["id-a", "cid-a", "boom", "good", "good"]
       = .reply ["id-a", "cid-a", "FAILURE", boomError.ename, boomError.evalue, boomError.tb] ∧
     handle_request svcNatSerFail ["id-b", "cid-b", "mk", "good", "good"]
       = .reply ["id-b", "cid-b", "FAILURE", picklingError.ename, picklingError.evalue, picklingError.tb]) :=
  ⟨rfl, rfl, rfl, rfl, rfl, rfl, rfl,
   dispatcher_failure_reply Nat svcNat svcNatSerFail
     "id-a" "cid-a" "boom" "good" "good" "id-b" "cid-b" "mk" "good" "good"
     [] [] 0 0 0 0 5 boomMethod mkMethod boomError picklingError
     rfl rfl rfl rfl rfl rfl rfl rfl rfl rfl rfl⟩

/-- C5: the spec requires a raising callback to be caught *and logged*,
with nothing propagating into the event loop; the code violates the
logged/no-propagation part.  The `except:` arm runs
`self.log.error('Unexpected callback error', exc_info=True)`, but `log`
is never assigned, so `self.log` resolves through `__getattr__` to an
`AsyncRemoteMethod` instance, whose missing `error` attribute raises
`AttributeError` — which escapes `_handle_reply` into the event loop,
and nothing is logged. -/
theorem callback_error_escapes_handler (V : Type)
    (deser : String → Except PyError V) (cbs : Ledger V)
    (msg_id blob : String) (rest : List String) (v : V)
    (cb : Callback V) (e : PyError)
    (hd : deser blob = .ok v) (hget : Ledger.get cbs msg_id = some cb)
    (hcb : cb (.success v) = .error e) :
    (handleReply deser cbs (msg_id :: "SUCCESS" :: blob :: rest)).raised
        = some attributeErrorLog ∧
    (handleReply deser cbs (msg_id :: "SUCCESS" :: blob :: rest)).logged = false ∧
    attributeErrorLog.ename = "AttributeError" := by
  have hdec : decodeReply deser "SUCCESS" (blob :: rest) = .ok (some (.success v)) := by
    simp [decodeReply, hd, Except.map]
  have hlog : asyncProxyLogError = .error attributeErrorLog := rfl
  refine ⟨?_, ?_, rfl⟩ <;> simp only [handleReply, hdec, hget, hcb, hlog]

/-- Witness for `callback_error_escapes_handler`: ledger
`[("id1", cbRaise)]` and the matching SUCCESS reply. -/
theorem callback_error_escapes_handler_witness :
    natDeser "good" = .ok 0 ∧
    Ledger.get [("id1", cbRaise)] "id1" = some cbRaise ∧
    cbRaise (.success 0) = .error cbError ∧
    ((handleReply natDeser [("id1", cbRaise)] ["id1", "SUCCESS", "good"]).raised
        = some attributeErrorLog ∧
     (handleReply natDeser [("id1", cbRaise)] ["id1", "SUCCESS", "good"]).logged = false ∧
     attributeErrorLog.ename = "AttributeError") :=
  ⟨rfl, rfl, rfl,
   callback_error_escapes_handler Nat natDeser [("id1", cbRaise)] "id1" "good" []
     0 cbRaise cbError rfl rfl rfl⟩

/-- C6: end-to-end echo scenario.  With any codec that round-trips the
shipped values (`deserialize(serialize(x)) = x` for the args tuple
`("hello",)`, the empty kwargs dict and the result `"hello"`), the sync
proxy's `call` for `echo("hello")` sends the request frames
`[call-id, "echo", args-blob, kwargs-blob]`; the service dispatcher,
receiving them behind the ROUTER-prepended identity frame, answers
`[identity, call-id, "SUCCESS", result-blob]`; and feeding that reply —
identity frame consumed by the transport — back to the blocked `call`
returns exactly `"hello"`. -/
theorem echo_sync_roundtrip (ser : PyVal → Except PyError String)
    (deser : String → Except PyError PyVal) (st : ProxyState)
    (ident mid pargs pkw pres : String)
    (hsa : ser (.cons (.str "hello") .nil) = .ok pargs)
    (hra : deser pargs = .ok (.cons (.str "hello") .nil))
    (hsk : ser .nil = .ok pkw)
    (hrk : deser pkw = .ok .nil)
    (hsr : ser (.str "hello") = .ok pres)
    (hrr : deser pres = .ok (.str "hello")) :
    (syncCall st ser deser "echo" (.cons (.str "hello") .nil) .nil mid []).sent
        = [mid, "echo", pargs, pkw] ∧
    handle_request (echoService ser deser)
        (ident :: [mid, "echo", pargs, pkw])
        = .reply [ident, mid, "SUCCESS", pres] ∧
    (syncCall st ser deser "echo" (.cons (.str "hello") .nil) .nil mid
        ([ident, mid, "SUCCESS", pres].drop 1)).outcome = .ok (some (.str "hello")) := by
  refine ⟨syncCall_sent st ser deser "echo" _ _ mid [] pargs pkw hsa hsk, ?_, ?_⟩
  · simp [handle_request, echoService, hra, hrk, echoRun, hsr]
  · unfold syncCall
    rw [proxyReadyTruthy_eq_true, hsa, hsk]
    simp [hrr]

/-- Witness for `echo_sync_roundtrip`: the `toySer`/`toyDeser` codec
round-trips the three shipped values, and the pipeline returns
`"hello"`. -/
theorem echo_sync_roundtrip_witness :
    toySer (.cons (.str "hello") .nil) = .ok "b" ∧
    toyDeser "b" = .ok (.cons (.str "hello") .nil) ∧
    toySer .nil = .ok "c" ∧
    toyDeser "c" = .ok .nil ∧
    toySer (.str "hello") = .ok "a" ∧
    toyDeser "a" = .ok (.str "hello") ∧
    ((syncCall st0 toySer toyDeser "echo" (.cons (.str "hello") .nil) .nil "mid" []).sent
        = ["mid", "echo", "b", "c"] ∧
     handle_request (echoService toySer toyDeser) ("ident" :: ["mid", "echo", "b", "c"])
        = .reply ["ident", "mid", "SUCCESS", "a"] ∧
     (syncCall st0 toySer toyDeser "echo" (.cons (.str "hello") .nil) .nil "mid"
        (["ident", "mid", "SUCCESS", "a"].drop 1)).outcome = .ok (some (.str "hello"))) :=
  ⟨rfl, rfl, rfl, rfl, rfl, rfl,
   echo_sync_roundtrip toySer toyDeser st0 "ident" "mid" "b" "c" "a"
     rfl rfl rfl rfl rfl rfl⟩

/-- C7: a request whose method name `getattr` does not find on the
service, or finds without the `is_rpc_method` marker, is answered by
`logging.error('Unknown RPC method: ...')` and nothing else: no reply
frames are emitted, and the method body is never invoked — the
`.logged_drop` outcome holds for *every* possible body `handler.run`, as
the statement quantifies over the handler. -/
theorem unknown_method_logged_dropped (V : Type) (svc : RPCService V)
    (ident cid meth pargs pkw : String) (rest : List String) (args kwargs : V)
    (hda : svc.deserialize pargs = .ok args)
    (hdk : svc.deserialize pkw = .ok kwargs)
    (hmiss : svc.attrs meth = none ∨
      ∃ h, svc.attrs meth = some h ∧ h.is_rpc_method = false) :
    handle_request svc (ident :: cid :: meth :: pargs :: pkw :: rest)
      = .logged_drop meth := by
  rcases hmiss with hnone | ⟨h, hh, hflag⟩
  · simp [handle_request, hda, hdk, hnone]
  · simp [handle_request, hda, hdk, hh, hflag]

/-- Witness for `unknown_method_logged_dropped`: the name-matched but
unmarked `plain` method of `svcNat` is dropped, not invoked. -/
theorem unknown_method_logged_dropped_witness :
    natDeser "good" = .ok 0 ∧
    svcNat.attrs "plain" = some plainMethod ∧
    plainMethod.is_rpc_method = false ∧
    handle_request svcNat ["id-c", "cid-c", "plain", "good", "good"]
      = .logged_drop "plain" :=
  ⟨rfl, rfl, rfl,
   unknown_method_logged_dropped Nat svcNat "id-c" "cid-c" "plain" "good" "good"
     [] 0 0 rfl rfl (Or.inr ⟨plainMethod, rfl, rfl⟩)⟩

/-- C8: the wire layouts.  (i) A sync `call` whose args/kwargs serialize
sends exactly `[call-id, method, args-blob, kwargs-blob]` (the DEALER
transport adds the identity); (ii) the async `call` sends the same four
frames; (iii) a successful dispatch answers exactly
`[identity, call-id, "SUCCESS", result-blob]`; (iv) a failed invocation
answers exactly
`[identity, call-id, "FAILURE", ename, evalue, traceback]` with the
three error fields sent as UTF-8 text. -/
theorem wire_frame_layouts (V : Type) (st : ProxyState)
    (ser : V → Except PyError String) (deser : String → Except PyError V)
    (m : String) (a k : V) (cb : Callback V) (mid : String)
    (recv : List String) (cbs : Ledger V) (pa pk : String)
    (svc svc2 : RPCService V)
    (ident cid meth pargs pkw ident2 cid2 meth2 pargs2 pkw2 : String)
    (rest rest2 : List String) (args kwargs args2 kwargs2 r : V)
    (handler handler2 : RPCMethod V) (pres : String) (e : PyError)
    (hsa : ser a = .ok pa) (hsk : ser k = .ok pk)
    (hda : svc.deserialize pargs = .ok args)
    (hdk : svc.deserialize pkw = .ok kwargs)
    (hh : svc.attrs meth = some handler) (hrpc : handler.is_rpc_method = true)
    (hrun : handler.run args kwargs = .ok r) (hser : svc.serialize r = .ok pres)
    (hda2 : svc2.deserialize pargs2 = .ok args2)
    (hdk2 : svc2.deserialize pkw2 = .ok kwargs2)
    (hh2 : svc2.attrs meth2 = some handler2) (hrpc2 : handler2.is_rpc_method = true)
    (hrun2 : handler2.run args2 kwargs2 = .error e) :
    (syncCall st ser deser m a k mid recv).sent = [mid, m, pa, pk] ∧
    (asyncCall st ser m cb a k mid cbs).sent = [mid, m, pa, pk] ∧
    handle_request svc (ident :: cid :: meth :: pargs :: pkw :: rest)
      = .reply [ident, cid, "SUCCESS", pres] ∧
    handle_request svc2 (ident2 :: cid2 :: meth2 :: pargs2 :: pkw2 :: rest2)
      = .reply [ident2, cid2, "FAILURE", e.ename, e.evalue, e.tb] := by
  refine ⟨syncCall_sent st ser deser m a k mid recv pa pk hsa hsk, ?_, ?_, ?_⟩
  · unfold asyncCall
    rw [proxyReadyTruthy_eq_true, hsa, hsk]
    rfl
  · simp [handle_request, hda, hdk, hh, hrpc, hrun, hser]
  · simp [handle_request, hda2, hdk2, hh2, hrpc2, hrun2, sendError]

/-- Witness for `wire_frame_layouts` on `svcNat`: a `mk` request
(success) and a `boom` request (failure). -/
theorem wire_frame_layouts_witness :
    natSer 1 = .ok "1" ∧ natSer 2 = .ok "2" ∧
    mkMethod.run 0 0 = .ok 5 ∧ natSer 5 = .ok "5" ∧
    boomMethod.run 0 0 = .error boomError ∧
    ((syncCall st0 natSer natDeser "mk" 1 2 "mid" []).sent = ["mid", "mk", "1", "2"] ∧
     (asyncCall st0 natSer "mk" cbOk 1 2 "mid" []).sent = ["mid", "mk", "1", "2"] ∧
     handle_request svcNat ["id-d", "cid-d", "mk", "good", "good"]
       = .reply ["id-d", "cid-d", "SUCCESS", "5"] ∧
     handle_request svcNat ["id-e", "cid-e", "boom", "good", "good"]
       = .reply ["id-e", "cid-e", "FAILURE", boomError.ename, boomError.evalue, boomError.tb]) :=
  ⟨rfl, rfl, rfl, rfl, rfl,
   wire_frame_layouts Nat st0 natSer natDeser "mk" 1 2 cbOk "mid" [] [] "1" "2"
     svcNat svcNat "id-d" "cid-d" "mk" "good" "good" "id-e" "cid-e" "boom" "good" "good"
     [] [] 0 0 0 0 5 mkMethod boomMethod "5" boomError
     rfl rfl rfl rfl rfl rfl rfl rfl rfl rfl rfl rfl rfl⟩

/-- C9: a reply whose msg-id has no ledger entry is dropped: whatever its
kind — a decodable SUCCESS reply, a FAILURE reply, or a reply with an
unknown status tag — `_handle_reply` leaves the ledger unchanged, invokes
no callback and raises nothing.  (A malformed reply whose result blob
fails to deserialize raises *before* the ledger lookup, for matched and
unmatched call-ids alike; that protocol-error path is outside this
claim.) -/
theorem unmatched_reply_dropped (V : Type) (deser : String → Except PyError V)
    (cbs : Ledger V) (msg_id blob en ev tb status : String)
    (more rest : List String) (v : V)
    (hmiss : Ledger.get cbs msg_id = none)
    (hd : deser blob = .ok v)
    (hs : status ≠ "SUCCESS") (hf : status ≠ "FAILURE") :
    handleReply deser cbs (msg_id :: "SUCCESS" :: blob :: more)
      = { ledger := cbs, invoked := none, logged := false, raised := none } ∧
    handleReply deser cbs (msg_id :: "FAILURE" :: en :: ev :: tb :: more)
      = { ledger := cbs, invoked := none, logged := false, raised := none } ∧
    handleReply deser cbs (msg_id :: status :: rest)
      = { ledger := cbs, invoked := none, logged := false, raised := none } := by
  refine ⟨?_, ?_, ?_⟩
  · have hdec : decodeReply deser "SUCCESS" (blob :: more)
        = .ok (some (.success v)) := by simp [decodeReply, hd, Except.map]
    simp only [handleReply, hdec, hmiss]
  · have hdec : decodeReply deser "FAILURE" (en :: ev :: tb :: more)
        = .ok (some (.failure en ev tb)) := by simp [decodeReply]
    simp only [handleReply, hdec, hmiss]
  · have hdec : decodeReply deser status rest
        = (.ok none : Except PyError (Option (CallResult V))) := by
      simp [decodeReply, hs, hf]
    simp only [handleReply, hdec, hmiss]

/-- Witness for `unmatched_reply_dropped`: the empty ledger and the
call-id `"ghost"`. -/
theorem unmatched_reply_dropped_witness :
    Ledger.get ([] : Ledger Nat) "ghost" = none ∧
    natDeser "good" = .ok 0 ∧
    ("WEIRD" : String) ≠ "SUCCESS" ∧ ("WEIRD" : String) ≠ "FAILURE" ∧
    (handleReply natDeser [] ["ghost", "SUCCESS", "good"]
       = { ledger := [], invoked := none, logged := false, raised := none } ∧
     handleReply natDeser [] ["ghost", "FAILURE", "E", "v", "t"]
       = { ledger := [], invoked := none, logged := false, raised := none } ∧
     handleReply natDeser [] ["ghost", "WEIRD"]
       = { ledger := [], invoked := none, logged := false, raised := none }) :=
  ⟨rfl, rfl, by decide, by decide,
   unmatched_reply_dropped Nat natDeser [] "ghost" "good" "E" "v" "t" "WEIRD"
     [] [] 0 rfl rfl (by decide) (by decide)⟩

/-- C10: the two `self._deserialize` calls on the args and kwargs blobs
(lines 160-161) run before the `try:` that guards invocation, so a
deserialization exception is not converted to a FAILURE reply: it
escapes `_handle_request` into the event loop (`.raised`), and no reply
frames — SUCCESS or FAILURE — are emitted for that request. -/
theorem args_decode_error_propagates (V : Type) (svc : RPCService V)
    (ident cid meth pargs pkw ident2 cid2 meth2 pargs2 pkw2 : String)
    (rest rest2 : List String) (args2 : V) (e e2 : PyError)
    (h1 : svc.deserialize pargs = .error e)
    (h2 : svc.deserialize pargs2 = .ok args2)
    (h3 : svc.deserialize pkw2 = .error e2) :
    handle_request svc (ident :: cid :: meth :: pargs :: pkw :: rest) = .raised e ∧
    handle_request svc (ident2 :: cid2 :: meth2 :: pargs2 :: pkw2 :: rest2)
      = .raised e2 := by
  constructor
  · simp [handle_request, h1]
  · simp [handle_request, h2, h3]

/-- Witness for `args_decode_error_propagates`: `natDeser` fails on the
blob `"bad"` and succeeds on `"good"`. -/
theorem args_decode_error_propagates_witness :
    natDeser "bad" = .error badPickle ∧
    natDeser "good" = .ok 0 ∧
    (handle_request svcNat ["id-f", "cid-f", "mk", "bad", "good"] = .raised badPickle ∧
     handle_request svcNat ["id-g", "cid-g", "mk", "good", "bad"] = .raised badPickle) :=
  ⟨rfl, rfl,
   args_decode_error_propagates Nat svcNat "id-f" "cid-f" "mk" "bad" "good"
     "id-g" "cid-g" "mk" "good" "bad" [] [] 0 badPickle badPickle
     rfl rfl rfl⟩

end SimpleRPC
